import Mathlib

/-!
Shallow embedding of the two C programs of this repository:
`static-hello-world/C/hello_world.c` (auxiliary-vector dump) and
`static-foreign-apps/C/matrix_mult.c` (fixed 3x3 matrix multiplication).

Machine integers are modelled as `Nat`: `uint32_t` arithmetic carries an
explicit `% 2 ^ 32` at every store (the C code computes `sum` and the
matrix cells in `uint32_t`); the `uint64_t` values in the aux-vector
decoder are only compared and copied, never computed with, so no
reduction is needed there.
-/

/-- The `aux_vec` struct of hello_world.c: a key/value pair of `uint64_t`. -/
structure aux_vec where
  key : Nat
  val : Nat
deriving DecidableEq

/-! The `aux_var_type` enumeration of hello_world.c, constant by constant. -/

def AtNull : Nat := 0

def AtIgnore : Nat := 1

def AtExecfd : Nat := 2

def AtPhdr : Nat := 3

def AtPhent : Nat := 4

def AtPhnum : Nat := 5

def AtPagesz : Nat := 6

def AtBase : Nat := 7

def AtFlags : Nat := 8

def AtEntry : Nat := 9

def AtNotelf : Nat := 10

def AtUid : Nat := 11

def AtEuid : Nat := 12

def AtGid : Nat := 13

def AtEgid : Nat := 14

def AtPlatform : Nat := 15

def AtHwcap : Nat := 16

def AtClktck : Nat := 17

def AtSecure : Nat := 23

def AtBasePlatform : Nat := 24

def AtRandom : Nat := 25

def AtHwcap2 : Nat := 26

def AtExecFn : Nat := 31

def AtSysinfo : Nat := 32

def AtSysinfoEhdr : Nat := 33

def AtL1iCachesize : Nat := 40

def AtL1iCachegeometry : Nat := 41

def AtL1dCachesize : Nat := 42

def AtL1dCachegeometry : Nat := 43

def AtL2Cachesize : Nat := 44

def AtL2Cachegeometry : Nat := 45

def AtL3Cachesize : Nat := 46

def AtL3Cachegeometry : Nat := 47

/-- `aux_var_type_to_str` of hello_world.c: the `switch` over the tag,
case by case in source order; the `default` arm is the final `else`.
The eight cache-geometry constants (tags 40-47) are declared in the
enumeration but have no `case` in the `switch`, so they reach `default`. -/
def aux_var_type_to_str (type : Nat) : String :=
  if type = AtNull then "AtNull"
  else if type = AtIgnore then "AtIgnore"
  else if type = AtExecfd then "AtExecfd"
  else if type = AtPhdr then "AtPhdr"
  else if type = AtPhent then "AtPhent"
  else if type = AtPhnum then "AtPhnum"
  else if type = AtPagesz then "AtPagesz"
  else if type = AtBase then "AtBase"
  else if type = AtFlags then "AtFlags"
  else if type = AtEntry then "AtEntry"
  else if type = AtNotelf then "AtNotelf"
  else if type = AtUid then "AtUid"
  else if type = AtEuid then "AtEuid"
  else if type = AtGid then "AtGid"
  else if type = AtEgid then "AtEgid"
  else if type = AtPlatform then "AtPlatform"
  else if type = AtHwcap then "AtHwcap"
  else if type = AtClktck then "AtClktck"
  else if type = AtSecure then "AtSecure"
  else if type = AtBasePlatform then "AtBasePlatform"
  else if type = AtRandom then "AtRandom"
  else if type = AtHwcap2 then "AtHwcap2"
  else if type = AtExecFn then "AtExecFn"
  else if type = AtSysinfo then "AtSysinfo"
  else if type = AtSysinfoEhdr then "AtSysinfoEhdr"
  else "Unknown"

/-- The 25 `case` arms of the `switch` in `aux_var_type_to_str`, each tag
paired with the string the function returns for it. -/
def knownTagTable : List (Nat × String) :=
  [(AtNull, "AtNull"), (AtIgnore, "AtIgnore"), (AtExecfd, "AtExecfd"),
   (AtPhdr, "AtPhdr"), (AtPhent, "AtPhent"), (AtPhnum, "AtPhnum"),
   (AtPagesz, "AtPagesz"), (AtBase, "AtBase"), (AtFlags, "AtFlags"),
   (AtEntry, "AtEntry"), (AtNotelf, "AtNotelf"), (AtUid, "AtUid"),
   (AtEuid, "AtEuid"), (AtGid, "AtGid"), (AtEgid, "AtEgid"),
   (AtPlatform, "AtPlatform"), (AtHwcap, "AtHwcap"), (AtClktck, "AtClktck"),
   (AtSecure, "AtSecure"), (AtBasePlatform, "AtBasePlatform"),
   (AtRandom, "AtRandom"), (AtHwcap2, "AtHwcap2"), (AtExecFn, "AtExecFn"),
   (AtSysinfo, "AtSysinfo"), (AtSysinfoEhdr, "AtSysinfoEhdr")]

/-- The tags that have their own `case` in the `switch`. -/
def knownTags : List Nat := knownTagTable.map Prod.fst

/-- The cache-geometry tags: enumerated in `aux_var_type` but absent from
the `switch` of `aux_var_type_to_str`. -/
def cacheGeometryTags : List Nat :=
  [AtL1iCachesize, AtL1iCachegeometry, AtL1dCachesize, AtL1dCachegeometry,
   AtL2Cachesize, AtL2Cachegeometry, AtL3Cachesize, AtL3Cachegeometry]

/-- One printed line of the aux-vector dump, abstracted to its content:
(resolved label, numeric key, numeric value). The `%p` pointer prefix of
the printf and the numeral base of the value are presentation only (the
spec declares the exact textual format not load-bearing). -/
abbrev DumpLine := String × Nat × Nat

/-- Outcome of the aux-vector scan loop of `main` over the window of
entries it was handed. `ok` is the printed line sequence. The loop
`for (; aux->key; aux++)` has no bounds check: when the window holds no
zero key the loop walks past its end into unrelated memory, which the
embedding reports as `scannedPastWindow`. -/
inductive DecodeResult where
  | ok (lines : List DumpLine)
  | scannedPastWindow
deriving DecidableEq

/-- The aux-vector scan of `main` in hello_world.c over an explicit
window of entries, threading the window memory through each iteration
(the loop only reads `aux->key` and `aux->val`; it never stores).
Each non-zero-key entry is printed via `aux_var_type_to_str`; on the
zero key the loop exits and the final printf prints the terminator line
with `aux_var_type_to_str(AtNull)`, key `AtNull` and the literal value
`0` (not the entry's stored value). Returns the result together with the
window memory as it is after the pass. -/
def decode : List aux_vec → DecodeResult × List aux_vec
  | [] => (DecodeResult.scannedPastWindow, [])
  | e :: rest =>
    if e.key = 0 then
      (DecodeResult.ok [(aux_var_type_to_str AtNull, AtNull, 0)], e :: rest)
    else
      match decode rest with
      | (DecodeResult.ok lines, rest') =>
          (DecodeResult.ok ((aux_var_type_to_str e.key, e.key, e.val) :: lines),
           e :: rest')
      | (DecodeResult.scannedPastWindow, rest') =>
          (DecodeResult.scannedPastWindow, e :: rest')

/-- A call to `aux_var_type_to_str` in the state-passing reading: the
function body only switches on its argument and returns a string
literal, so the program memory (here: the aux window, the only mutable
state the decode pass touches) is passed through unchanged. -/
def aux_var_type_to_str_call (mem : List aux_vec) (t : Nat) :
    String × List aux_vec :=
  (aux_var_type_to_str t, mem)

/-! Embedding of matrix_mult.c. -/

/-- `DIM` of matrix_mult.c. -/
def DIM : Nat := 3

/-- The init double loop of matrix_mult.c: for each `i < DIM`, `j < DIM`
it stores `num = i * DIM + j` at index `num`, so the flattened row-major
matrix holds `0, 1, 2, ...` (stored as `uint32_t`). -/
def mkInitMatrix : List Nat :=
  ((List.range DIM).map fun i =>
    (List.range DIM).map fun j => (i * DIM + j) % 2 ^ 32).flatten

/-- `matrix1` of matrix_mult.c. -/
def matrix1 : List Nat := mkInitMatrix

/-- `matrix2` of matrix_mult.c. -/
def matrix2 : List Nat := mkInitMatrix

/-- The `uint32_t` running sum of the innermost loop of matrix_mult.c
after `n` iterations of `k`, for row `i` and column `j`:
`sum += matrix1[i * DIM + k] * matrix2[k * DIM + j]` with product and
sum reduced modulo `2 ^ 32`. -/
def mulSumU32 (i j n : Nat) : Nat :=
  (List.range n).foldl
    (fun sum k =>
      (sum + matrix1.getD (i * DIM + k) 0 * matrix2.getD (k * DIM + j) 0 % 2 ^ 32)
        % 2 ^ 32)
    0

/-- `res_matrix` of matrix_mult.c: the triple loop stores
`mulSumU32 i j DIM` at index `i * DIM + j`, row-major. -/
def res_matrix : List Nat :=
  ((List.range DIM).map fun i =>
    (List.range DIM).map fun j => mulSumU32 i j DIM).flatten

/-- The same running sum computed without the `uint32_t` reduction, used
to express that no 32-bit overflow occurs in the real computation. -/
def mulSumNat (i j n : Nat) : Nat :=
  (List.range n).foldl
    (fun sum k =>
      sum + matrix1.getD (i * DIM + k) 0 * matrix2.getD (k * DIM + j) 0)
    0

/-- Every intermediate value of the multiplication loop - each product
and each partial sum - fits in `uint32_t`. -/
def intermediatesBounded : Bool :=
  (List.range DIM).all fun i =>
    (List.range DIM).all fun j =>
      (List.range DIM).all fun k =>
        decide (matrix1.getD (i * DIM + k) 0 * matrix2.getD (k * DIM + j) 0
          < 2 ^ 32) &&
        decide (mulSumNat i j (k + 1) < 2 ^ 32)

/-! Helper lemmas, shared across the development. -/

/-- A tag outside the 25 `case` arms reaches the `default` arm. -/
theorem str_eq_unknown_of_not_mem (t : Nat) (h : t ∉ knownTags) :
    aux_var_type_to_str t = "Unknown" := by
  simp only [knownTags, knownTagTable, List.map_cons, List.map_nil,
    List.mem_cons, List.not_mem_nil, or_false, not_or] at h
  obtain ⟨h0, h1, h2, h3, h4, h5, h6, h7, h8, h9, h10, h11, h12, h13, h14,
    h15, h16, h17, h18, h19, h20, h21, h22, h23, h24⟩ := h
  unfold aux_var_type_to_str
  rw [if_neg h0, if_neg h1, if_neg h2, if_neg h3, if_neg h4, if_neg h5,
    if_neg h6, if_neg h7, if_neg h8, if_neg h9, if_neg h10, if_neg h11,
    if_neg h12, if_neg h13, if_neg h14, if_neg h15, if_neg h16, if_neg h17,
    if_neg h18, if_neg h19, if_neg h20, if_neg h21, if_neg h22, if_neg h23,
    if_neg h24]

/-- On the 25 recognized tags the label mapping is injective. -/
theorem str_injOn_knownTags :
    ∀ a ∈ knownTags, ∀ b ∈ knownTags,
      a ≠ b → aux_var_type_to_str a ≠ aux_var_type_to_str b := by
  decide

/-- No recognized tag resolves to the fallback label. -/
theorem str_ne_unknown_of_mem :
    ∀ t ∈ knownTags, aux_var_type_to_str t ≠ "Unknown" := by
  decide

/-! Claim theorems. -/

/-- Claim C1 (amended): for every tag with its own `case` in the switch
of `aux_var_type_to_str` (the 25 tags 0-17, 23-26, 31-33), the function
returns exactly the expected name string, never "Unknown"; the eight
enumerated cache-geometry tags (40-47) have no `case` and return
"Unknown". -/
theorem known_tag_labels :
    (∀ p ∈ knownTagTable, aux_var_type_to_str p.1 = p.2 ∧ p.2 ≠ "Unknown") ∧
      ∀ t ∈ cacheGeometryTags, aux_var_type_to_str t = "Unknown" := by
  decide

/-- Witness for C1 (amended), at tag 16 = AtHwcap and cache-geometry tag
42 = AtL1dCachesize. -/
theorem known_tag_labels_witness :
    aux_var_type_to_str AtHwcap = "AtHwcap" ∧
      aux_var_type_to_str AtL1dCachesize = "Unknown" :=
  ⟨(known_tag_labels.1 (AtHwcap, "AtHwcap") (by decide)).1,
   known_tag_labels.2 AtL1dCachesize (by decide)⟩

/-- Counterexample to C1 as stated: tag 43 = AtL1dCachegeometry is one of
the enumerated constants, yet `aux_var_type_to_str` returns the fallback
"Unknown" for it, not "AtL1dCachegeometry" - the switch has no case for
the cache-geometry tags. -/
theorem cachegeometry_label_counterexample :
    aux_var_type_to_str AtL1dCachegeometry = "Unknown" ∧
      aux_var_type_to_str 43 ≠ "AtL1dCachegeometry" := by
  decide

/-- Claim C4: any tag outside the known set (the 25 tags with a `case` in
the switch) resolves to the literal fallback "Unknown"; the function is
total, so every input has a defined output. -/
theorem unknown_tag_fallback (t : Nat) (h : t ∉ knownTags) :
    aux_var_type_to_str t = "Unknown" :=
  str_eq_unknown_of_not_mem t h

/-- Witness for C4, at the tag 9999 named by the spec. -/
theorem unknown_tag_fallback_witness :
    9999 ∉ knownTags ∧ aux_var_type_to_str 9999 = "Unknown" :=
  ⟨by decide, unknown_tag_fallback 9999 (by decide)⟩

/-- Claim C7: `aux_var_type_to_str` is pure - in the state-passing
reading of a call, calling it twice on the same tag returns identical
output, and the program memory after the two calls is the initial one
(no side effects, no hidden state). -/
theorem label_for_pure (mem : List aux_vec) (t : Nat) :
    (aux_var_type_to_str_call mem t).1 =
        (aux_var_type_to_str_call (aux_var_type_to_str_call mem t).2 t).1 ∧
      (aux_var_type_to_str_call (aux_var_type_to_str_call mem t).2 t).2 = mem :=
  ⟨rfl, rfl⟩

/-- Claim C10: the tag-to-label mapping is injective on the tags it
recognizes - two distinct tags that both resolve to a non-"Unknown"
label get different labels - and no tag with its own `case` in the
mapping ever resolves to "Unknown". -/
theorem label_map_injective :
    (∀ a b : Nat, aux_var_type_to_str a ≠ "Unknown" →
        aux_var_type_to_str b ≠ "Unknown" → a ≠ b →
        aux_var_type_to_str a ≠ aux_var_type_to_str b) ∧
      ∀ t ∈ knownTags, aux_var_type_to_str t ≠ "Unknown" := by
  constructor
  · intro a b ha hb hab
    have haM : a ∈ knownTags := by
      by_contra hmem
      exact ha (str_eq_unknown_of_not_mem a hmem)
    have hbM : b ∈ knownTags := by
      by_contra hmem
      exact hb (str_eq_unknown_of_not_mem b hmem)
    exact str_injOn_knownTags a haM b hbM hab
  · exact str_ne_unknown_of_mem

/-- Witness for C10, at the distinct recognized tags 0 and 6. -/
theorem label_map_injective_witness :
    aux_var_type_to_str 0 ≠ aux_var_type_to_str 6 ∧
      aux_var_type_to_str 6 ≠ "Unknown" :=
  ⟨label_map_injective.1 0 6 (by decide) (by decide) (by decide),
   label_map_injective.2 6 (by decide)⟩

/-- Claim C2 (amended): over a window that contains no zero-key entry,
the scan loop of `main` runs past the end of the window (the unbounded
sentinel search of `for (; aux->key; aux++)`); the code has no bounded
scan window and no MalformedInput condition. -/
theorem decode_no_terminator_scans_past (mem : List aux_vec)
    (h : ∀ e ∈ mem, e.key ≠ 0) :
    (decode mem).1 = DecodeResult.scannedPastWindow := by
  induction mem with
  | nil => rfl
  | cons e rest ih =>
    have he : e.key ≠ 0 := h e (List.mem_cons_self e rest)
    have ih' := ih fun y hy => h y (List.mem_cons_of_mem e hy)
    rcases hdec : decode rest with ⟨r, rest'⟩
    rw [hdec] at ih'
    cases r with
    | ok lines => simp at ih'
    | scannedPastWindow => simp [decode, he, hdec]

/-- Witness for C2 (amended), over the terminator-free window
[(16, 3), (99, 5)]. -/
theorem decode_no_terminator_scans_past_witness :
    (∀ e ∈ [(⟨AtHwcap, 3⟩ : aux_vec), ⟨99, 5⟩], e.key ≠ 0) ∧
      (decode [(⟨AtHwcap, 3⟩ : aux_vec), ⟨99, 5⟩]).1 =
        DecodeResult.scannedPastWindow :=
  ⟨by decide, decode_no_terminator_scans_past _ (by decide)⟩

/-- Counterexample to C2 as stated: over the window [(9, 1)], which has
no zero-key entry, the scan runs past the window instead of failing with
a MalformedInput condition - no such error path exists in the code. -/
theorem decode_no_terminator_counterexample :
    (decode [(⟨AtEntry, 1⟩ : aux_vec)]).1 = DecodeResult.scannedPastWindow := by
  decide

/-- Claim C3 (amended): over any window consisting of zero-key-free
entries `pre`, then a terminator entry `e` (key 0), then arbitrary
further entries `post`, the decode pass yields exactly the entries of
`pre` in order, each paired with its resolved label, followed by the
fixed terminator line ("AtNull", 0, 0) - the terminator's stored value
is not echoed - and nothing further: the entries of `post` are never
inspected. -/
theorem decode_yields_up_to_terminator (pre : List aux_vec) (e : aux_vec)
    (post : List aux_vec) (hpre : ∀ x ∈ pre, x.key ≠ 0) (he : e.key = 0) :
    (decode (pre ++ e :: post)).1 =
      DecodeResult.ok
        ((pre.map fun x => (aux_var_type_to_str x.key, x.key, x.val)) ++
          [("AtNull", 0, 0)]) := by
  induction pre with
  | nil =>
    simp only [List.nil_append, List.map_nil]
    simp [decode, he]
    decide
  | cons x xs ih =>
    have hx : x.key ≠ 0 := hpre x (List.mem_cons_self x xs)
    have ih' := ih fun y hy => hpre y (List.mem_cons_of_mem x hy)
    rcases hdec : decode (xs ++ e :: post) with ⟨r, rest'⟩
    rw [hdec] at ih'
    simp only [Prod.fst] at ih'
    subst ih'
    simp [decode, hx, hdec]

/-- Witness for C3 (amended), over the window
[(6, 4096), (9, 0x400000), (0, 0), (12345, 7)]: the two entries before
the terminator are yielded with their labels, then the terminator line,
and the trailing entry is never yielded. -/
theorem decode_yields_up_to_terminator_witness :
    (∀ x ∈ [(⟨AtPagesz, 4096⟩ : aux_vec), ⟨AtEntry, 4194304⟩], x.key ≠ 0) ∧
      (⟨AtNull, 0⟩ : aux_vec).key = 0 ∧
      (decode ([(⟨AtPagesz, 4096⟩ : aux_vec), ⟨AtEntry, 4194304⟩] ++
          (⟨AtNull, 0⟩ : aux_vec) :: [⟨12345, 7⟩])).1 =
        DecodeResult.ok
          (([(⟨AtPagesz, 4096⟩ : aux_vec), ⟨AtEntry, 4194304⟩].map fun x =>
              (aux_var_type_to_str x.key, x.key, x.val)) ++ [("AtNull", 0, 0)]) :=
  ⟨by decide, by decide,
   decode_yields_up_to_terminator _ _ _ (by decide) (by decide)⟩

/-- Counterexample to C3 as stated: over the window [(0, 42)], whose
terminator entry stores the value 42, the decode pass yields the fixed
terminator line ("AtNull", 0, 0) - the final printf prints the literal
value 0, not the entry's stored value - so the yielded line is not the
entry paired with its label. -/
theorem decode_terminator_value_counterexample :
    (decode [(⟨0, 42⟩ : aux_vec)]).1 = DecodeResult.ok [("AtNull", 0, 0)] ∧
      (decode [(⟨0, 42⟩ : aux_vec)]).1 ≠ DecodeResult.ok [("AtNull", 0, 42)] := by
  decide

/-- Claim C5: over the entries [(AtPagesz = 6, 4096), (AtNull = 0, 0)]
the decode pass produces exactly the line ("AtPagesz", 6, 4096) followed
by the line ("AtNull", 0, 0), and nothing further - one line per entry
holding the resolved label, the numeric key and the numeric value. -/
theorem decode_pagesz_scenario :
    (decode [(⟨AtPagesz, 4096⟩ : aux_vec), ⟨AtNull, 0⟩]).1 =
      DecodeResult.ok [("AtPagesz", AtPagesz, 4096), ("AtNull", AtNull, 0)] := by
  decide

/-- Claim C8: a decode pass never mutates its input - the window memory
threaded through the pass comes back exactly as it went in (the loop
only reads `aux->key` and `aux->val`; there is no store). -/
theorem decode_preserves_window (mem : List aux_vec) : (decode mem).2 = mem := by
  induction mem with
  | nil => rfl
  | cons e rest ih =>
    by_cases he : e.key = 0
    · simp [decode, he]
    · rcases hdec : decode rest with ⟨r, rest'⟩
      rw [hdec] at ih
      simp only [Prod.snd] at ih
      subst ih
      cases r <;> simp [decode, he, hdec]

/-- Claim C6: for every row `i < 3` and column `j < 3`, the cell the
triple loop stores at `res_matrix[i * 3 + j]` equals the textbook sum
over `k < 3` of `matrix1[i * 3 + k] * matrix2[k * 3 + j]` in 32-bit
unsigned arithmetic, with both matrices initialized so that cell (i, j)
holds `i * 3 + j`. -/
theorem res_matrix_textbook (i j : Nat) (hi : i < DIM) (hj : j < DIM) :
    res_matrix.getD (i * DIM + j) 0 =
      (Finset.sum (Finset.range DIM) fun k =>
        matrix1.getD (i * DIM + k) 0 * matrix2.getD (k * DIM + j) 0) % 2 ^ 32 := by
  simp only [DIM] at hi hj
  interval_cases i <;> interval_cases j <;> decide

/-- Witness for C6, at row 2 and column 1. -/
theorem res_matrix_textbook_witness :
    2 < DIM ∧ 1 < DIM ∧
      res_matrix.getD (2 * DIM + 1) 0 =
        (Finset.sum (Finset.range DIM) fun k =>
          matrix1.getD (2 * DIM + k) 0 * matrix2.getD (k * DIM + 1) 0) % 2 ^ 32 :=
  ⟨by decide, by decide, res_matrix_textbook 2 1 (by decide) (by decide)⟩

/-- Claim C9: with both input matrices holding 0..8 row-major, the
computed result matrix is exactly [[15, 18, 21], [42, 54, 66],
[69, 90, 111]] (row-major), and every intermediate product and partial
sum of the multiplication loop fits in `uint32_t`, so no 32-bit overflow
occurs. -/
theorem res_matrix_value_no_overflow :
    res_matrix = [15, 18, 21, 42, 54, 66, 69, 90, 111] ∧
      intermediatesBounded = true := by
  decide
